import Mathlib

set_option autoImplicit false

namespace KrishiMitra

/-! Shallow embedding of `src/Scripts/app.py` (a Flask service exposing a
health endpoint and two prediction endpoints over pre-loaded models and
scalers) and `src/Scripts/preprocess.py` (a one-shot batch preprocessing
script).  Numeric values are modelled as rationals; opaque library models
and scalers are modelled as function parameters held in the environment. -/

/-- Python/JSON values as the endpoints see them via `request.json`. -/
inductive PyVal : Type where
  | none : PyVal
  | bool (b : Bool) : PyVal
  | num (q : ℚ) : PyVal
  | str (s : String) : PyVal
  | arr (xs : List PyVal) : PyVal
  | obj (kvs : List (String × PyVal)) : PyVal

/-- Python truthiness (`if not data`): `None`, `False`, `0`, empty string,
empty list and empty dict are falsy. -/
def pyFalsy : PyVal → Bool
  | .none => true
  | .bool b => !b
  | .num q => q == 0
  | .str s => s.isEmpty
  | .arr xs => xs.isEmpty
  | .obj kvs => kvs.isEmpty

/-- Python `len(v)`: defined for strings, lists and dicts; `Option.none`
models the `TypeError` raised on other values (notably `len(None)`). -/
def pyLen : PyVal → Option Nat
  | .str s => some s.length
  | .arr xs => some xs.length
  | .obj kvs => some kvs.length
  | _ => Option.none

/-- Numeric coercion as performed by `np.array` + scaler `transform`:
numbers are taken as-is, Python booleans coerce to 0/1, anything else
makes the downstream library call raise. -/
def asNum : PyVal → Option ℚ
  | .num q => some q
  | .bool b => some (if b then 1 else 0)
  | _ => Option.none

/-- Numeric coercion of a whole row; `Option.none` if any entry is
non-numeric. -/
def asNumList : List PyVal → Option (List ℚ)
  | [] => some []
  | v :: vs =>
    match asNum v, asNumList vs with
    | some q, some qs => some (q :: qs)
    | _, _ => Option.none

/-- Substring test used by Python's `k in s` when `s` is a string. -/
def strContainsSubstr (s pat : String) : Bool :=
  (List.range (s.length + 1)).any fun i => pat.data.isPrefixOf (s.data.drop i)

/-- Python `k in data` for a string key `k`: key membership for dicts,
element membership for lists, substring test for strings; `.error`
models the `TypeError` raised for other values. -/
def pyContainsStr : PyVal → String → Except Unit Bool
  | .obj kvs, k => .ok (List.lookup k kvs).isSome
  | .arr xs, k => .ok (xs.any fun v => match v with | .str s => s == k | _ => false)
  | .str s, k => .ok (strContainsSubstr s k)
  | _, _ => .error ()

/-- Python `data[k]` for a string key `k`: dict indexing; `.error` models
the `TypeError`/`KeyError` raised on lists, strings and other values. -/
def pyGetItemStr : PyVal → String → Except Unit PyVal
  | .obj kvs, k =>
    match List.lookup k kvs with
    | some v => .ok v
    | Option.none => .error ()
  | _, _ => .error ()

/-- Short-circuiting `all(feature in data for feature in names)`. -/
def pyAllContain (body : PyVal) : List String → Except Unit Bool
  | [] => .ok true
  | k :: ks =>
    match pyContainsStr body k with
    | .error e => .error e
    | .ok true => pyAllContain body ks
    | .ok false => .ok false

/-- `[data[feature] for feature in names]`. -/
def pyGetItems (body : PyVal) : List String → Except Unit (List PyVal)
  | [] => .ok []
  | k :: ks =>
    match pyGetItemStr body k with
    | .error e => .error e
    | .ok v =>
      match pyGetItems body ks with
      | .error e => .error e
      | .ok vs => .ok (v :: vs)

/-- The in-memory artifact mappings `MODELS` / `SCALERS`: a key is present
in the Python dict exactly when the corresponding field is `some`.  A model
maps a (scaled) feature row to the scalar `prediction[0][0]`; a scaler is
the `transform` method on one feature row. -/
structure Env : Type where
  soilModel : Option (List ℚ → ℚ)
  soilScaler : Option (List ℚ → List ℚ)
  weatherModel : Option (List ℚ → ℚ)
  weatherScaler : Option (List ℚ → List ℚ)

/-- Both mappings empty. -/
def Env.empty : Env := ⟨Option.none, Option.none, Option.none, Option.none⟩

/-- JSON bodies the service can produce. -/
inductive RespBody : Type where
  | error (msg : String) : RespBody
  | soilResult (fertilityStatus : String) (confidence : ℚ) : RespBody
  | weatherResult (predictedTemperature : ℚ) : RespBody
  | health (hstatus : String) (soilLoaded weatherLoaded : Bool) : RespBody
deriving DecidableEq, Repr

/-- An HTTP response: status code and JSON body. -/
structure Response : Type where
  status : Nat
  body : RespBody
deriving DecidableEq, Repr

/-- An endpoint outcome together with an invocation trace: whether the
scaler's `transform` and the model's `predict` were called. -/
structure Traced : Type where
  resp : Response
  scalerCalled : Bool
  modelCalled : Bool
deriving DecidableEq, Repr

/-- `GET /` (app.py lines 137-146): always 200; reports, per capability,
whether the model key is in `MODELS` (scalers are not consulted). -/
def index (env : Env) : Response :=
  ⟨200, .health "healthy" env.soilModel.isSome env.weatherModel.isSome⟩

/-- The 12 required soil feature names, in array-construction order. -/
def feature_names : List String :=
  ["N", "P", "K", "pH", "EC", "OC", "S", "Zn", "Fe", "Cu", "Mn", "B"]

/-- Generic 500 body of the soil endpoint's catch-all handler. -/
def soilErrMsg : String := "Internal server error during soil analysis"

/-- Look up every name of `names` in an association list; `Option.none` if
any is missing. -/
def lookupAll : List String → List (String × PyVal) → Option (List PyVal)
  | [], _ => some []
  | k :: ks, kvs =>
    match List.lookup k kvs, lookupAll ks kvs with
    | some v, some vs => some (v :: vs)
    | _, _ => Option.none

/-- The numeric feature row a soil request body `kvs` yields: all 12
required keys present with numeric values, in `feature_names` order. -/
def soilFeatureVals (kvs : List (String × PyVal)) : Option (List ℚ) :=
  (lookupAll feature_names kvs).bind asNumList

/-- `POST /soil-analysis` (app.py lines 148-189). -/
def soil_analysis (env : Env) (body : PyVal) : Traced :=
  match env.soilModel, env.soilScaler with
  | some model, some scaler =>
    if pyFalsy body then
      ⟨⟨400, .error "No soil data provided"⟩, false, false⟩
    else
      match pyAllContain body feature_names with
      | .error _ => ⟨⟨500, .error soilErrMsg⟩, false, false⟩
      | .ok false => ⟨⟨400, .error "Missing required soil features"⟩, false, false⟩
      | .ok true =>
        match pyGetItems body feature_names with
        | .error _ => ⟨⟨500, .error soilErrMsg⟩, false, false⟩
        | .ok features =>
          match asNumList features with
          | Option.none => ⟨⟨500, .error soilErrMsg⟩, true, false⟩
          | some vals =>
            let p := model (scaler vals)
            ⟨⟨200, .soilResult (if (1 : ℚ) / 2 < p then "High" else "Low") (p * 100)⟩,
              true, true⟩
  | _, _ => ⟨⟨500, .error "Soil analysis model not loaded"⟩, false, false⟩

/-- 500 body when the weather artifacts are missing. -/
def weatherNotLoadedMsg : String :=
  "Weather prediction model or scaler not loaded. Please ensure the weather model and scaler files are available."

/-- Generic 500 body of the weather endpoint's catch-all handler. -/
def weatherErrMsg : String := "Internal server error during weather prediction"

/-- The f-string of the size-validation 400 response. -/
def weatherSizeMsg (n : Nat) : String :=
  "Invalid input size. Expected a JSON array with exactly 3 values, but got "
    ++ toString n ++ " values."

/-- Size validation and inference on the extracted `data` value (app.py
lines 209-227), together with the catch-all's translation of the
exceptions those lines raise.  When `data` is `None` the guard
`not data or len(data) != 3` short-circuits, but the f-string then
evaluates `len(data)` and raises `TypeError`, hence the 500 branch of the
falsy case; when `data` is truthy but has no `len`, the guard itself
raises. -/
def weatherValidate (model : List ℚ → ℚ) (scaler : List ℚ → List ℚ) (d : PyVal) : Traced :=
  if pyFalsy d then
    match pyLen d with
    | some n => ⟨⟨400, .error (weatherSizeMsg n)⟩, false, false⟩
    | Option.none => ⟨⟨500, .error weatherErrMsg⟩, false, false⟩
  else
    match pyLen d with
    | Option.none => ⟨⟨500, .error weatherErrMsg⟩, false, false⟩
    | some n =>
      if n ≠ 3 then
        ⟨⟨400, .error (weatherSizeMsg n)⟩, false, false⟩
      else
        match d with
        | .arr xs =>
          match asNumList xs with
          | Option.none => ⟨⟨500, .error weatherErrMsg⟩, true, false⟩
          | some vals =>
            ⟨⟨200, .weatherResult (model (scaler vals))⟩, true, true⟩
        | _ => ⟨⟨500, .error weatherErrMsg⟩, false, false⟩

/-- `POST /weather-prediction` (app.py lines 191-232): artifact check,
then extraction of `data` (a dict contributes `data.get("data", None)`,
a bare list is kept, anything else is a 400), then validation and
inference. -/
def weather_prediction (env : Env) (body : PyVal) : Traced :=
  match env.weatherModel, env.weatherScaler with
  | some model, some scaler =>
    match body with
    | .obj kvs => weatherValidate model scaler ((List.lookup "data" kvs).getD .none)
    | .arr xs => weatherValidate model scaler (.arr xs)
    | _ =>
      ⟨⟨400, .error "Invalid input format. Expected a JSON array or object."⟩, false, false⟩
  | _, _ => ⟨⟨500, .error weatherNotLoadedMsg⟩, false, false⟩

/-! ## Artifact loading (`load_models_and_scalers`, app.py lines 38-135)

The preliminary preprocessing/training triggers (lines 52-90) each catch
their own exceptions and never touch `models`/`scalers`; only the loading
phase (lines 92-133) matters for the mappings.  Each artifact file is
either absent (skipped with a log line), present and loadable, or present
but raising on load; one shared `try` wraps all four loads and resets both
dicts to empty on any exception. -/

/-- State of one artifact file on disk: missing, present but raising when
loaded, or present with the loaded value. -/
inductive ArtState (α : Type) : Type where
  | absent : ArtState α
  | corrupt : ArtState α
  | good (a : α) : ArtState α

/-- The four artifact files the loader looks at. -/
structure LoadWorld : Type where
  soilModelFile : ArtState (List ℚ → ℚ)
  soilScalerFile : ArtState (List ℚ → List ℚ)
  weatherModelFile : ArtState (List ℚ → ℚ)
  weatherScalerFile : ArtState (List ℚ → List ℚ)

/-- One `if os.path.exists(...): load(...)` step inside the shared `try`:
an absent file is skipped, a corrupt one raises. -/
def loadOne {α : Type} : ArtState α → Except Unit (Option α)
  | .absent => .ok Option.none
  | .corrupt => .error ()
  | .good a => .ok (some a)

/-- The body of the `try` block (app.py lines 92-126), loading soil model,
soil scaler, weather model, weather scaler in that order. -/
def loadPhase (w : LoadWorld) : Except Unit Env := do
  let sm ← loadOne w.soilModelFile
  let ss ← loadOne w.soilScalerFile
  let wm ← loadOne w.weatherModelFile
  let ws ← loadOne w.weatherScalerFile
  pure ⟨sm, ss, wm, ws⟩

/-- `load_models_and_scalers`: the `except` clause (lines 127-131) resets
both mappings to `{}` on any exception raised in the loading phase. -/
def load_models_and_scalers (w : LoadWorld) : Env :=
  match loadPhase w with
  | .ok e => e
  | .error _ => Env.empty

/-! ## Artifact paths (app.py lines 43-54, preprocess.py line 27) -/

/-- `os.path.join(project_root, "Models", "Soil_analysis", "scaler.pkl")`
(app.py line 44), also used by the preprocessing trigger check (line 53). -/
def soil_scaler_path (projectRoot : String) : String :=
  projectRoot ++ "/Models/Soil_analysis/scaler.pkl"

/-- The path `preprocess.py` line 27 hands to `joblib.dump`, relative to
the process working directory. -/
def preprocessScalerDumpPath : String := "Models/Soil_Analysis/scaler.pkl"

/-- A case-sensitive file system as a set of existing paths. -/
def fsWrite (fs : String → Bool) (p : String) : String → Bool :=
  fun q => q == p || fs q

/-! ## Preprocessing script (`src/Scripts/preprocess.py`)

The script is a straight-line composition of library calls.  The external
library operations (`train_test_split` with `random_state`, the
`StandardScaler`) are modelled as deterministic functions supplied in an
`MLLib` record: `splitIndices n t seed` yields the (train, test) row-index
lists for `n` rows, `fit` fits a scaler on feature rows, `transform`
applies a fitted scaler. -/

/-- Deterministic interface of the sklearn operations the script uses. -/
structure MLLib (σ : Type) : Type where
  splitIndices : Nat → ℚ → Nat → List Nat × List Nat
  fit : List (List ℚ) → σ
  transform : σ → List (List ℚ) → List (List ℚ)

/-- Row selection by index list (how `train_test_split` materialises the
partitions from its index permutation). -/
def selectRows {α : Type} (rows : List α) (idx : List Nat) : List α :=
  idx.filterMap fun i => rows.get? i

/-- `csv_path` of preprocess.py line 7. -/
def csv_path : String := "Data/Soil/soil_data.csv"

/-- Everything one run of the script reads, computes and persists. -/
structure PreprocessRun (σ : Type) : Type where
  readPath : String
  splitPair : List Nat × List Nat
  scalerOut : σ
  outXTrainScaled : List (List ℚ)
  outXTestScaled : List (List ℚ)
  outYTrain : List ℚ
  outYTest : List ℚ
  writtenPaths : List String

/-- The script body (preprocess.py lines 7-27): drop the `Output` column
to get features `X` and target `y`, split with `test_size=0.2` and
`random_state=42`, fit the scaler on `X_train` only, transform both
partitions, write the four CSVs and dump the scaler.  A dataset row is
(feature row, `Output` value). -/
def preprocess {σ : Type} (lib : MLLib σ) (rows : List (List ℚ × ℚ)) : PreprocessRun σ :=
  let X : List (List ℚ) := rows.map Prod.fst
  let y : List ℚ := rows.map Prod.snd
  let idx := lib.splitIndices rows.length (1 / 5) 42
  let XTrain := selectRows X idx.1
  let XTest := selectRows X idx.2
  let yTrain := selectRows y idx.1
  let yTest := selectRows y idx.2
  let scaler := lib.fit XTrain
  { readPath := csv_path
    splitPair := idx
    scalerOut := scaler
    outXTrainScaled := lib.transform scaler XTrain
    outXTestScaled := lib.transform scaler XTest
    outYTrain := yTrain
    outYTest := yTest
    writtenPaths :=
      ["Data/Soil/X_train_scaled.csv", "Data/Soil/X_test_scaled.csv",
       "Data/Soil/y_train.csv", "Data/Soil/y_test.csv",
       "Models/Soil_Analysis/scaler.pkl"] }

/-- A fully-loaded environment with simple concrete artifacts, used to
evaluate the theorems on closed inputs. -/
def envDemo : Env := ⟨some fun _ => 3 / 4, some id, some fun v => v.headI, some id⟩

/-! ## Helper lemmas about the request-body primitives -/

theorem pyFalsy_obj_of_lookup {kvs : List (String × PyVal)} {f : String}
    (h : (List.lookup f kvs).isSome) : pyFalsy (.obj kvs) = false := by
  cases kvs with
  | nil => simp [List.lookup] at h
  | cons p l => rfl

theorem lookupAll_isSome_of_mem {kvs : List (String × PyVal)} :
    ∀ {names : List String} {vs : List PyVal}, lookupAll names kvs = some vs →
      ∀ f ∈ names, (List.lookup f kvs).isSome := by
  intro names
  induction names with
  | nil => intro vs _ f hf; cases hf
  | cons k ks ih =>
    intro vs h f hf
    revert h
    unfold lookupAll
    cases hk : List.lookup k kvs with
    | none => simp
    | some v =>
      cases hall : lookupAll ks kvs with
      | none => simp
      | some vs2 =>
        intro _
        rcases List.mem_cons.mp hf with rfl | hf2
        · simp [hk]
        · exact ih hall f hf2

theorem lookupAll_exists_of_isSome {kvs : List (String × PyVal)} :
    ∀ names : List String, (∀ f ∈ names, (List.lookup f kvs).isSome) →
      ∃ vs, lookupAll names kvs = some vs := by
  intro names
  induction names with
  | nil => intro _; exact ⟨[], rfl⟩
  | cons k ks ih =>
    intro h
    obtain ⟨v, hv⟩ := Option.isSome_iff_exists.mp (h k (List.mem_cons_self k ks))
    obtain ⟨vs, hvs⟩ := ih fun f hf => h f (List.mem_cons_of_mem _ hf)
    exact ⟨v :: vs, by unfold lookupAll; rw [hv, hvs]⟩

theorem lookupAll_congr {kvs1 kvs2 : List (String × PyVal)} :
    ∀ names : List String, (∀ f ∈ names, List.lookup f kvs1 = List.lookup f kvs2) →
      lookupAll names kvs1 = lookupAll names kvs2 := by
  intro names
  induction names with
  | nil => intro _; rfl
  | cons k ks ih =>
    intro h
    unfold lookupAll
    rw [h k (List.mem_cons_self k ks), ih fun f hf => h f (List.mem_cons_of_mem _ hf)]

theorem pyAllContain_obj_of_isSome {kvs : List (String × PyVal)} :
    ∀ names : List String, (∀ f ∈ names, (List.lookup f kvs).isSome) →
      pyAllContain (.obj kvs) names = .ok true := by
  intro names
  induction names with
  | nil => intro _; rfl
  | cons k ks ih =>
    intro h
    have hk := h k (List.mem_cons_self k ks)
    unfold pyAllContain
    simp only [pyContainsStr, hk]
    exact ih fun f hf => h f (List.mem_cons_of_mem _ hf)

theorem pyAllContain_obj_false_of_missing {kvs : List (String × PyVal)} {f : String} :
    ∀ names : List String, f ∈ names → List.lookup f kvs = Option.none →
      pyAllContain (.obj kvs) names = .ok false := by
  intro names
  induction names with
  | nil => intro hf _; cases hf
  | cons k ks ih =>
    intro hf hmiss
    unfold pyAllContain
    rcases List.mem_cons.mp hf with rfl | hf2
    · simp [pyContainsStr, hmiss]
    · cases hk : (List.lookup k kvs).isSome with
      | false => simp [pyContainsStr, hk]
      | true =>
        simp only [pyContainsStr, hk]
        exact ih hf2 hmiss

theorem pyGetItems_obj_of_lookupAll {kvs : List (String × PyVal)} :
    ∀ {names : List String} {vs : List PyVal}, lookupAll names kvs = some vs →
      pyGetItems (.obj kvs) names = .ok vs := by
  intro names
  induction names with
  | nil => intro vs h; cases h; rfl
  | cons k ks ih =>
    intro vs h
    revert h
    unfold lookupAll
    cases hk : List.lookup k kvs with
    | none => simp
    | some v =>
      cases hall : lookupAll ks kvs with
      | none => simp
      | some vs2 =>
        intro h
        cases h
        unfold pyGetItems
        simp [pyGetItemStr, hk, ih hall]

/-! ## Claim theorems -/

/-- C3: for every list `xs`, a weather request whose body is the bare
JSON array `xs` and one whose body is the object `{"data": xs}` produce
identical traced outcomes (same status, same predicted temperature),
whatever models and scalers are loaded.  In particular this holds for
every list of 3 numbers. -/
theorem c3_format_equivalence (env : Env) (xs : List PyVal) :
    weather_prediction env (.arr xs)
      = weather_prediction env (.obj [("data", .arr xs)]) := by
  obtain ⟨a, b, c, d⟩ := env
  cases c <;> cases d <;> rfl

/-- C5: for each capability, the endpoint performs inference only when
both the model and its scaler are present; if either is absent the
request yields a 500 with an explanatory message and neither the scaler
nor the model is invoked. -/
theorem c5_capability_unavailable (env : Env) (body : PyVal) :
    ((env.soilModel = Option.none ∨ env.soilScaler = Option.none) →
      soil_analysis env body
        = ⟨⟨500, .error "Soil analysis model not loaded"⟩, false, false⟩) ∧
    ((env.weatherModel = Option.none ∨ env.weatherScaler = Option.none) →
      weather_prediction env body
        = ⟨⟨500, .error weatherNotLoadedMsg⟩, false, false⟩) := by
  obtain ⟨a, b, c, d⟩ := env
  constructor
  · rintro (h | h) <;> dsimp only at h <;> subst h
    · cases b <;> rfl
    · cases a <;> rfl
  · rintro (h | h) <;> dsimp only at h <;> subst h
    · cases d <;> rfl
    · cases c <;> rfl

/-- Witness for C5 at the empty environment. -/
theorem c5_capability_unavailable_witness :
    soil_analysis Env.empty (.obj [])
        = ⟨⟨500, .error "Soil analysis model not loaded"⟩, false, false⟩ ∧
    weather_prediction Env.empty (.obj [])
        = ⟨⟨500, .error weatherNotLoadedMsg⟩, false, false⟩ :=
  ⟨(c5_capability_unavailable Env.empty (.obj [])).1 (Or.inl rfl),
   (c5_capability_unavailable Env.empty (.obj [])).2 (Or.inl rfl)⟩

/-- C6: if any of the four artifact loads raises, `load_models_and_scalers`
returns two empty mappings, discarding everything loaded earlier in that
call. -/
theorem c6_bulk_fail (w : LoadWorld)
    (h : w.soilModelFile = .corrupt ∨ w.soilScalerFile = .corrupt ∨
         w.weatherModelFile = .corrupt ∨ w.weatherScalerFile = .corrupt) :
    load_models_and_scalers w = Env.empty := by
  obtain ⟨a, b, c, d⟩ := w
  rcases h with h | h | h | h <;> dsimp only at h <;> subst h
  · rfl
  · cases a <;> rfl
  · cases a <;> cases b <;> rfl
  · cases a <;> cases b <;> cases c <;> rfl

/-- Witness for C6: soil model, soil scaler and weather model all load
fine, the weather scaler raises — everything is discarded. -/
theorem c6_bulk_fail_witness :
    load_models_and_scalers
        ⟨.good fun _ => 1, .good id, .good fun _ => 2, .corrupt⟩ = Env.empty :=
  c6_bulk_fail _ (Or.inr (Or.inr (Or.inr rfl)))

/-- C7: `GET /` always answers 200 and reports, per capability, exactly
whether the model key is loaded; the report is independent of scaler
presence; with only the weather model loaded it reports soil `false` and
weather `true`. -/
theorem c7_health (env : Env) :
    index env = ⟨200, .health "healthy" env.soilModel.isSome env.weatherModel.isSome⟩ ∧
    (∀ env2 : Env, env2.soilModel.isSome = env.soilModel.isSome →
      env2.weatherModel.isSome = env.weatherModel.isSome → index env2 = index env) ∧
    (env.soilModel = Option.none → env.weatherModel.isSome = true →
      index env = ⟨200, .health "healthy" false true⟩) := by
  refine ⟨rfl, ?_, ?_⟩
  · intro env2 h1 h2
    simp [index, h1, h2]
  · intro h1 h2
    simp [index, h1, h2]

/-- Witness for C7 at an environment holding only the weather model. -/
theorem c7_health_witness :
    index ⟨Option.none, Option.none, some fun v => v.headI, Option.none⟩
      = ⟨200, .health "healthy" false true⟩ :=
  (c7_health ⟨Option.none, Option.none, some fun v => v.headI, Option.none⟩).2.2 rfl rfl

/-- C1 counterexample: with both weather artifacts loaded, the body `{}`
(no `data` key, so the extracted value is `None`) is answered with a 500
server error — `len(None)` raises inside the f-string — not with a client
error reporting a count of 0. -/
theorem c1_counterexample :
    (weather_prediction envDemo (.obj [])).resp = ⟨500, .error weatherErrMsg⟩ ∧
    (weather_prediction envDemo (.obj [])).resp.status ≠ 400 :=
  ⟨rfl, by decide⟩

/-- C1 (amended): with both weather artifacts loaded, an array payload
(bare or under the `data` key) of length ≠ 3 yields a 400 whose message
reports the actual count; but when the `data` key is absent or holds
`None`, evaluating the count raises and the endpoint answers a generic
500 server error instead of a client error. -/
theorem c1_weather_size (env : Env) (model : List ℚ → ℚ) (scaler : List ℚ → List ℚ)
    (hm : env.weatherModel = some model) (hs : env.weatherScaler = some scaler) :
    (∀ xs : List PyVal, xs.length ≠ 3 →
      weather_prediction env (.arr xs)
          = ⟨⟨400, .error (weatherSizeMsg xs.length)⟩, false, false⟩ ∧
      ∀ kvs : List (String × PyVal), List.lookup "data" kvs = some (.arr xs) →
        weather_prediction env (.obj kvs)
            = ⟨⟨400, .error (weatherSizeMsg xs.length)⟩, false, false⟩) ∧
    (∀ kvs : List (String × PyVal),
      List.lookup "data" kvs = Option.none ∨ List.lookup "data" kvs = some PyVal.none →
      weather_prediction env (.obj kvs)
          = ⟨⟨500, .error weatherErrMsg⟩, false, false⟩) := by
  obtain ⟨a, b, c, d⟩ := env
  dsimp only at hm hs
  subst hm hs
  have harr : ∀ xs : List PyVal, xs.length ≠ 3 →
      weatherValidate model scaler (.arr xs)
        = ⟨⟨400, .error (weatherSizeMsg xs.length)⟩, false, false⟩ := by
    intro xs hxs
    cases xs with
    | nil => rfl
    | cons v vs =>
      have h3 : ¬ vs.length = 2 := by
        intro h2
        exact hxs (by simp [h2])
      simp [weatherValidate, pyFalsy, pyLen, hxs, h3]
  refine ⟨fun xs hxs => ⟨harr xs hxs, fun kvs hk => ?_⟩, fun kvs hk => ?_⟩
  · show weatherValidate model scaler ((List.lookup "data" kvs).getD .none) = _
    rw [hk]
    exact harr xs hxs
  · show weatherValidate model scaler ((List.lookup "data" kvs).getD .none) = _
    rcases hk with hk | hk <;> rw [hk] <;> rfl

/-- Witness for C1 (amended): a 2-element array, bare and wrapped, gets a
400 reporting "2"; `{"other": 7}` gets the 500. -/
theorem c1_weather_size_witness :
    weather_prediction envDemo (.arr [.num 1, .num 2])
        = ⟨⟨400, .error (weatherSizeMsg 2)⟩, false, false⟩ ∧
    weather_prediction envDemo (.obj [("data", .arr [.num 1, .num 2])])
        = ⟨⟨400, .error (weatherSizeMsg 2)⟩, false, false⟩ ∧
    weather_prediction envDemo (.obj [("other", .num 7)])
        = ⟨⟨500, .error weatherErrMsg⟩, false, false⟩ := by
  have h := c1_weather_size envDemo _ _ rfl rfl
  exact ⟨(h.1 [.num 1, .num 2] (by decide)).1,
         (h.1 [.num 1, .num 2] (by decide)).2 [("data", .arr [.num 1, .num 2])] rfl,
         h.2 [("other", .num 7)] (Or.inl rfl)⟩

/-- C2: with both soil artifacts loaded and a body providing all 12
required features as numbers, if the model's scalar lies in [0,1] then
the response is a 200 whose `fertility_status` is "High" exactly when
the scalar strictly exceeds 0.5 (and "Low" otherwise) and whose
`confidence` is the scalar times 100, hence in [0,100]. -/
theorem c2_soil_success (env : Env) (model : List ℚ → ℚ) (scaler : List ℚ → List ℚ)
    (kvs : List (String × PyVal)) (vals : List ℚ)
    (hm : env.soilModel = some model) (hs : env.soilScaler = some scaler)
    (hv : soilFeatureVals kvs = some vals)
    (h0 : 0 ≤ model (scaler vals)) (h1 : model (scaler vals) ≤ 1) :
    soil_analysis env (.obj kvs)
        = ⟨⟨200, .soilResult (if (1 : ℚ) / 2 < model (scaler vals) then "High" else "Low")
              (model (scaler vals) * 100)⟩, true, true⟩ ∧
    ((if (1 : ℚ) / 2 < model (scaler vals) then "High" else "Low") = "High"
        ↔ (1 : ℚ) / 2 < model (scaler vals)) ∧
    ((if (1 : ℚ) / 2 < model (scaler vals) then "High" else "Low") = "High" ∨
      (if (1 : ℚ) / 2 < model (scaler vals) then "High" else "Low") = "Low") ∧
    0 ≤ model (scaler vals) * 100 ∧ model (scaler vals) * 100 ≤ 100 := by
  obtain ⟨a, b, c, d⟩ := env
  dsimp only at hm hs
  subst hm hs
  obtain ⟨feats, hfeats, hnums⟩ := Option.bind_eq_some.mp hv
  have hpres := lookupAll_isSome_of_mem hfeats
  have hfal : pyFalsy (.obj kvs) = false :=
    pyFalsy_obj_of_lookup (hpres "N" (by decide))
  have hall := pyAllContain_obj_of_isSome feature_names hpres
  have hget := pyGetItems_obj_of_lookupAll hfeats
  refine ⟨?_, ?_, ?_, ?_, ?_⟩
  · simp [soil_analysis, hfal, hall, hget, hnums]
  · by_cases hp : (1 : ℚ) / 2 < model (scaler vals) <;> simp [hp]
  · by_cases hp : (1 : ℚ) / 2 < model (scaler vals)
    · left
      rw [if_pos hp]
    · right
      rw [if_neg hp]
  · exact mul_nonneg h0 (by norm_num)
  · nlinarith

/-- Witness for C2 at a body giving every feature the value 1, with a
model returning 3/4. -/
theorem c2_soil_success_witness :
    soil_analysis envDemo (.obj (feature_names.map fun f => (f, .num 1)))
        = ⟨⟨200, .soilResult "High" 75⟩, true, true⟩ := by
  have h := c2_soil_success envDemo (fun _ => 3 / 4) id
      (feature_names.map fun f => (f, .num 1)) (List.replicate 12 1)
      rfl rfl (by decide) (by norm_num) (by norm_num)
  rw [h.1]
  norm_num

/-- C4: with both soil artifacts loaded, a body omitting at least one of
the 12 required feature keys gets a 400 client error, and neither the
scaler nor the model is invoked. -/
theorem c4_missing_feature (env : Env) (model : List ℚ → ℚ) (scaler : List ℚ → List ℚ)
    (kvs : List (String × PyVal)) (f : String)
    (hm : env.soilModel = some model) (hs : env.soilScaler = some scaler)
    (hf : f ∈ feature_names) (hmiss : List.lookup f kvs = Option.none) :
    (soil_analysis env (.obj kvs)).resp.status = 400 ∧
    (soil_analysis env (.obj kvs)).scalerCalled = false ∧
    (soil_analysis env (.obj kvs)).modelCalled = false := by
  obtain ⟨a, b, c, d⟩ := env
  dsimp only at hm hs
  subst hm hs
  by_cases hk : kvs = []
  · subst hk
    exact ⟨rfl, rfl, rfl⟩
  · have hfal : pyFalsy (.obj kvs) = false := by
      cases kvs with
      | nil => exact absurd rfl hk
      | cons p l => rfl
    have hall := pyAllContain_obj_false_of_missing feature_names hf hmiss
    refine ⟨?_, ?_, ?_⟩ <;> simp [soil_analysis, hfal, hall]

/-- Witness for C4 at a body providing only `N` (so `P` is missing). -/
theorem c4_missing_feature_witness :
    (soil_analysis envDemo (.obj [("N", .num 1)])).resp.status = 400 ∧
    (soil_analysis envDemo (.obj [("N", .num 1)])).scalerCalled = false ∧
    (soil_analysis envDemo (.obj [("N", .num 1)])).modelCalled = false :=
  c4_missing_feature envDemo _ _ [("N", .num 1)] "P" rfl rfl (by decide) rfl

/-- C10: two soil bodies that agree on (and contain) all 12 required
feature keys produce identical traced outcomes, whatever extra keys they
carry: only the 12 named features, in fixed order, determine the result. -/
theorem c10_extra_fields_ignored (env : Env) (kvs1 kvs2 : List (String × PyVal))
    (hagree : ∀ f ∈ feature_names, List.lookup f kvs1 = List.lookup f kvs2)
    (hpres : ∀ f ∈ feature_names, (List.lookup f kvs1).isSome) :
    soil_analysis env (.obj kvs1) = soil_analysis env (.obj kvs2) := by
  obtain ⟨a, b, c, d⟩ := env
  have hpres2 : ∀ f ∈ feature_names, (List.lookup f kvs2).isSome := by
    intro f hf
    rw [← hagree f hf]
    exact hpres f hf
  obtain ⟨vs, hvs⟩ := lookupAll_exists_of_isSome feature_names hpres
  have hvs2 : lookupAll feature_names kvs2 = some vs := by
    rw [← lookupAll_congr feature_names hagree]
    exact hvs
  have hfal1 : pyFalsy (.obj kvs1) = false :=
    pyFalsy_obj_of_lookup (hpres "N" (by decide))
  have hfal2 : pyFalsy (.obj kvs2) = false :=
    pyFalsy_obj_of_lookup (hpres2 "N" (by decide))
  have hall1 := pyAllContain_obj_of_isSome feature_names hpres
  have hall2 := pyAllContain_obj_of_isSome feature_names hpres2
  have hget1 := pyGetItems_obj_of_lookupAll hvs
  have hget2 := pyGetItems_obj_of_lookupAll hvs2
  cases a <;> cases b <;>
    simp [soil_analysis, hfal1, hfal2, hall1, hall2, hget1, hget2]

/-- Witness for C10: adding an unrelated `extra` key changes nothing. -/
theorem c10_extra_fields_ignored_witness :
    soil_analysis envDemo
        (.obj (("extra", .str "ignored") :: feature_names.map fun f => (f, .num 1)))
      = soil_analysis envDemo (.obj (feature_names.map fun f => (f, .num 1))) :=
  c10_extra_fields_ignored envDemo _ _
    (by intro f hf; simp only [feature_names] at hf; fin_cases hf <;> rfl)
    (by intro f hf; simp only [feature_names] at hf; fin_cases hf <;> rfl)

/-- C9: the soil-scaler path the loader reads — also the path the
preprocessing trigger checks — lies under `Soil_analysis`, while the
preprocessing script persists the scaler under `Soil_Analysis`: the two
path strings differ for every project root, and on a case-sensitive file
system writing the latter leaves an existence check of the former
unchanged, so the loader and trigger never see the persisted scaler. -/
theorem c9_scaler_path_mismatch (root : String) (fs : String → Bool) :
    soil_scaler_path root ≠ root ++ "/" ++ preprocessScalerDumpPath ∧
    fsWrite fs (root ++ "/" ++ preprocessScalerDumpPath) (soil_scaler_path root)
      = fs (soil_scaler_path root) := by
  have hne : soil_scaler_path root ≠ root ++ "/" ++ preprocessScalerDumpPath := by
    intro h
    have hd := congrArg String.data h
    simp only [soil_scaler_path, preprocessScalerDumpPath, String.data_append,
      List.append_assoc] at hd
    have := List.append_cancel_left hd
    exact absurd this (by decide)
  refine ⟨hne, ?_⟩
  show ((soil_scaler_path root == root ++ "/" ++ preprocessScalerDumpPath)
      || fs (soil_scaler_path root)) = fs (soil_scaler_path root)
  rw [beq_eq_false_iff_ne.mpr hne, Bool.false_or]

/-- C8: the preprocessing script reads the fixed CSV, splits rows and
targets with `test_size = 0.2` and seed 42 along one shared index pair,
fits the scaler on the training features only (rows outside the training
selection cannot influence it), applies that one fitted scaler to both
partitions, and persists exactly the four CSVs plus the scaler to fixed
paths; being a pure function of the input rows, two runs on the same
input produce the same partition. -/
theorem c8_preprocess {σ : Type} (lib : MLLib σ) (rows rows2 : List (List ℚ × ℚ))
    (hlen : rows2.length = rows.length)
    (htrain : selectRows (rows2.map Prod.fst) (lib.splitIndices rows.length (1 / 5) 42).1
        = selectRows (rows.map Prod.fst) (lib.splitIndices rows.length (1 / 5) 42).1) :
    (preprocess lib rows).readPath = "Data/Soil/soil_data.csv" ∧
    (preprocess lib rows).writtenPaths =
      ["Data/Soil/X_train_scaled.csv", "Data/Soil/X_test_scaled.csv",
       "Data/Soil/y_train.csv", "Data/Soil/y_test.csv",
       "Models/Soil_Analysis/scaler.pkl"] ∧
    (preprocess lib rows).splitPair = lib.splitIndices rows.length (1 / 5) 42 ∧
    (preprocess lib rows).scalerOut
      = lib.fit (selectRows (rows.map Prod.fst) (preprocess lib rows).splitPair.1) ∧
    (preprocess lib rows).outXTrainScaled
      = lib.transform (preprocess lib rows).scalerOut
          (selectRows (rows.map Prod.fst) (preprocess lib rows).splitPair.1) ∧
    (preprocess lib rows).outXTestScaled
      = lib.transform (preprocess lib rows).scalerOut
          (selectRows (rows.map Prod.fst) (preprocess lib rows).splitPair.2) ∧
    (preprocess lib rows).outYTrain
      = selectRows (rows.map Prod.snd) (preprocess lib rows).splitPair.1 ∧
    (preprocess lib rows).outYTest
      = selectRows (rows.map Prod.snd) (preprocess lib rows).splitPair.2 ∧
    (preprocess lib rows2).scalerOut = (preprocess lib rows).scalerOut ∧
    (preprocess lib rows2).splitPair = lib.splitIndices rows2.length (1 / 5) 42 := by
  refine ⟨rfl, rfl, rfl, rfl, rfl, rfl, rfl, rfl, ?_, rfl⟩
  show lib.fit (selectRows (rows2.map Prod.fst) (lib.splitIndices rows2.length (1 / 5) 42).1)
      = lib.fit (selectRows (rows.map Prod.fst) (lib.splitIndices rows.length (1 / 5) 42).1)
  rw [hlen, htrain]

/-- Witness for C8: two one-row datasets with the same feature row but
different targets yield the same fitted scaler. -/
theorem c8_preprocess_witness :
    (preprocess (⟨fun n _ _ => (List.range n, []), id, fun _ x => x⟩ : MLLib (List (List ℚ)))
        [([1, 2], 0)]).readPath = "Data/Soil/soil_data.csv" ∧
    (preprocess (⟨fun n _ _ => (List.range n, []), id, fun _ x => x⟩ : MLLib (List (List ℚ)))
        [([1, 2], 5)]).scalerOut
      = (preprocess (⟨fun n _ _ => (List.range n, []), id, fun _ x => x⟩ : MLLib (List (List ℚ)))
        [([1, 2], 0)]).scalerOut := by
  have h := c8_preprocess (⟨fun n _ _ => (List.range n, []), id, fun _ x => x⟩ :
      MLLib (List (List ℚ))) [([1, 2], 0)] [([1, 2], 5)] rfl rfl
  exact ⟨h.1, h.2.2.2.2.2.2.2.2.1⟩

end KrishiMitra
